import Mathlib

/-!
Verification of the chiadog event-detection pipeline against its code.

The embedding follows src/src/chia_log/handlers/finished_signage_point_handler.py
and src/src/notifier/telegram_notifier.py.  Python `datetime` values are
modelled as integer microseconds since an arbitrary epoch; `timedelta.seconds`
(the seconds component of a normalized timedelta, not the total) is modelled
by `timedeltaSeconds`.  Python exceptions (TypeError on subtracting None,
AttributeError on an unset attribute) are modelled by an `Option` result.
-/

namespace Chiadog

/-- Domain message produced by the signage-point parser: an absolute
timestamp (microseconds) and the signage point counter value. -/
structure FinishedSignagePointMessage where
  timestamp : Int
  signage_point : Int
deriving DecidableEq

/-- Modelled from the spec: the event category tag from src/notifier
(declaration not under src/); the handler comment mentions keep-alive
events besides user-facing ones. -/
inductive EventType where
  | USER
  | KEEPALIVE
deriving DecidableEq

/-- Modelled from the spec: the ordered severity enumeration (low, normal,
high) from src/notifier (declaration not under src/). -/
inductive EventPriority where
  | LOW
  | NORMAL
  | HIGH
deriving DecidableEq

/-- Modelled from the spec: the upstream subsystem tag from src/notifier
(declaration not under src/); FULL_NODE is used by the checker and
HARVESTER by the notifier tests. -/
inductive EventService where
  | FULL_NODE
  | HARVESTER
deriving DecidableEq

/-- Python enum `.name` attribute of an EventService member. -/
def EventService.name : EventService → String
  | .FULL_NODE => "FULL_NODE"
  | .HARVESTER => "HARVESTER"

/-- Modelled from the spec: the Event record from src/notifier (declaration
not under src/): kind, severity, source subsystem and human-readable text. -/
structure Event where
  type : EventType
  priority : EventPriority
  service : EventService
  message : String
deriving DecidableEq

/-- Seconds component of a Python timedelta built from a difference of
`deltaUs` microseconds: CPython normalizes a timedelta to
(days, seconds, microseconds) with 0 ≤ seconds < 86400, so
`.seconds = (deltaUs mod 86400000000).fdiv 1000000` (floor semantics,
matching Python's `//` and `%`). -/
def timedeltaSeconds (deltaUs : Int) : Int :=
  (deltaUs.emod 86400000000).fdiv 1000000

/-- State of the NonSkippedSignagePoints condition checker:
`_last_signage_point_timestamp`, `_last_signage_point` (both None before
the first message) and `_roll_over_point`. -/
structure NonSkippedSignagePoints where
  last_signage_point_timestamp : Option Int
  last_signage_point : Option Int
  roll_over_point : Int
deriving DecidableEq

/-- NonSkippedSignagePoints.__init__: both last-seen fields None, rollover 64. -/
def NonSkippedSignagePoints.init : NonSkippedSignagePoints :=
  { last_signage_point_timestamp := none
    last_signage_point := none
    roll_over_point := 64 }

/-- The warning message built by NonSkippedSignagePoints.check when a skip
is confirmed (the f-string hardcodes the modulus 64 in the text). -/
def skipMessage (last current : Int) : String :=
  "Experiencing networking issues? Skipped some signage points! Last " ++
    toString last ++ "/64, current " ++ toString current ++ "/64."

/-- NonSkippedSignagePoints.check.  Returns the updated state and the
optional Event; the outer `none` models the TypeError Python would raise
when `_last_signage_point` is set but `_last_signage_point_timestamp`
is None (unreachable from the real constructor). -/
def NonSkippedSignagePoints.check (s : NonSkippedSignagePoints)
    (obj : FinishedSignagePointMessage) :
    Option (NonSkippedSignagePoints × Option Event) :=
  match s.last_signage_point with
  | none =>
    some ({ s with
              last_signage_point_timestamp := some obj.timestamp
              last_signage_point := some obj.signage_point }, none)
  | some lastSp =>
    match s.last_signage_point_timestamp with
    | none => none
    | some lastTs =>
      let time_diff_seconds := timedeltaSeconds (obj.timestamp - lastTs)
      let increment_diff := obj.signage_point - lastSp.emod s.roll_over_point
      let event : Option Event :=
        if increment_diff ≤ 0 ∨ increment_diff > 1 then
          if time_diff_seconds < 15 then
            none
          else
            some { type := EventType.USER
                   priority := EventPriority.NORMAL
                   service := EventService.FULL_NODE
                   message := skipMessage lastSp obj.signage_point }
        else
          none
      some ({ s with
                last_signage_point_timestamp := some obj.timestamp
                last_signage_point := some obj.signage_point }, event)

end Chiadog

namespace Chiadog

/-- C5: the first check call on a fresh checker returns no event, never
fails, and primes the state with the message's timestamp and counter. -/
theorem claim_C5_first_call_primes (obj : FinishedSignagePointMessage) :
    NonSkippedSignagePoints.init.check obj =
      some ({ last_signage_point_timestamp := some obj.timestamp
              last_signage_point := some obj.signage_point
              roll_over_point := 64 }, none) := by
  rfl

/-- C3: from any primed state with lastCounter `c`, a message whose counter
is `(c mod 64) + 1` yields no event for every elapsed time; in particular
the rollover boundary lastCounter 64, counter 1 yields no event. -/
theorem claim_C3_normal_advance_no_event (c T t' : Int) :
    (NonSkippedSignagePoints.check
        { last_signage_point_timestamp := some T
          last_signage_point := some c
          roll_over_point := 64 }
        { timestamp := t', signage_point := c.emod 64 + 1 } =
      some ({ last_signage_point_timestamp := some t'
              last_signage_point := some (c.emod 64 + 1)
              roll_over_point := 64 }, none)) ∧
    (NonSkippedSignagePoints.check
        { last_signage_point_timestamp := some T
          last_signage_point := some 64
          roll_over_point := 64 }
        { timestamp := t', signage_point := 1 } =
      some ({ last_signage_point_timestamp := some t'
              last_signage_point := some 1
              roll_over_point := 64 }, none)) := by
  constructor
  · simp only [NonSkippedSignagePoints.check]
    have h2 : (c.emod 64).emod 64 = c.emod 64 :=
      Int.emod_emod_of_dvd c (dvd_refl 64)
    have h1 : ¬ (c.emod 64 + 1 - (c.emod 64).emod 64 ≤ 0 ∨
        c.emod 64 + 1 - (c.emod 64).emod 64 > 1) := by
      omega
    simp [h1]
  · simp only [NonSkippedSignagePoints.check]
    norm_num

/-- Evaluation of check from a primed state: the state is unconditionally
updated and the event is decided by the nested conditionals of the code. -/
theorem check_primed_eq (T L roll : Int) (m : FinishedSignagePointMessage) :
    NonSkippedSignagePoints.check
        { last_signage_point_timestamp := some T
          last_signage_point := some L
          roll_over_point := roll } m =
      some ({ last_signage_point_timestamp := some m.timestamp
              last_signage_point := some m.signage_point
              roll_over_point := roll },
        if m.signage_point - L.emod roll ≤ 0 ∨ m.signage_point - L.emod roll > 1 then
          if timedeltaSeconds (m.timestamp - T) < 15 then
            none
          else
            some { type := EventType.USER
                   priority := EventPriority.NORMAL
                   service := EventService.FULL_NODE
                   message := skipMessage L m.signage_point }
        else
          none) := rfl

/-- C1: from a primed state, an anomalous increment together with an
elapsed-seconds value of at least 15 produces an event of normal severity
whose message names both counters in the last/64 and current/64 format. -/
theorem claim_C1_skip_event (L T C t' : Int)
    (h1 : C - L.emod 64 ≤ 0 ∨ C - L.emod 64 > 1)
    (h2 : 15 ≤ timedeltaSeconds (t' - T)) :
    NonSkippedSignagePoints.check
        { last_signage_point_timestamp := some T
          last_signage_point := some L
          roll_over_point := 64 }
        { timestamp := t', signage_point := C } =
      some ({ last_signage_point_timestamp := some t'
              last_signage_point := some C
              roll_over_point := 64 },
        some { type := EventType.USER
               priority := EventPriority.NORMAL
               service := EventService.FULL_NODE
               message := skipMessage L C }) ∧
    skipMessage L C =
      "Experiencing networking issues? Skipped some signage points! Last " ++
        toString L ++ "/64, current " ++ toString C ++ "/64." := by
  refine ⟨?_, rfl⟩
  have h3 : ¬ timedeltaSeconds (t' - T) < 15 := by omega
  simp only [check_primed_eq]
  rw [if_pos h1, if_neg h3]

/-- C1 witness: lastCounter 10, counter 13, elapsed 20 seconds. -/
theorem claim_C1_skip_event_witness :
    ((13 : Int) - (10 : Int).emod 64 ≤ 0 ∨ (13 : Int) - (10 : Int).emod 64 > 1) ∧
    (15 ≤ timedeltaSeconds (20000000 - 0)) ∧
    (NonSkippedSignagePoints.check
        { last_signage_point_timestamp := some 0
          last_signage_point := some 10
          roll_over_point := 64 }
        { timestamp := 20000000, signage_point := 13 } =
      some ({ last_signage_point_timestamp := some 20000000
              last_signage_point := some 13
              roll_over_point := 64 },
        some { type := EventType.USER
               priority := EventPriority.NORMAL
               service := EventService.FULL_NODE
               message := skipMessage 10 13 }) ∧
      skipMessage 10 13 =
        "Experiencing networking issues? Skipped some signage points! Last " ++
          toString (10 : Int) ++ "/64, current " ++ toString (13 : Int) ++ "/64.") :=
  ⟨by decide, by decide,
    claim_C1_skip_event 10 0 13 20000000 (by decide) (by decide)⟩

/-- C4: an anomalous increment with elapsed seconds below 15 is suppressed
(no event) but the stored last-seen pair is still updated. -/
theorem claim_C4_blip_suppressed (L T C t' : Int)
    (h1 : C - L.emod 64 ≤ 0 ∨ C - L.emod 64 > 1)
    (h2 : timedeltaSeconds (t' - T) < 15) :
    NonSkippedSignagePoints.check
        { last_signage_point_timestamp := some T
          last_signage_point := some L
          roll_over_point := 64 }
        { timestamp := t', signage_point := C } =
      some ({ last_signage_point_timestamp := some t'
              last_signage_point := some C
              roll_over_point := 64 }, none) := by
  simp only [check_primed_eq]
  rw [if_pos h1, if_pos h2]

/-- C4 witness: lastCounter 10, counter 13, elapsed 5 seconds: no event,
stored counter becomes 13. -/
theorem claim_C4_blip_suppressed_witness :
    ((13 : Int) - (10 : Int).emod 64 ≤ 0 ∨ (13 : Int) - (10 : Int).emod 64 > 1) ∧
    (timedeltaSeconds (5000000 - 0) < 15) ∧
    NonSkippedSignagePoints.check
        { last_signage_point_timestamp := some 0
          last_signage_point := some 10
          roll_over_point := 64 }
        { timestamp := 5000000, signage_point := 13 } =
      some ({ last_signage_point_timestamp := some 5000000
              last_signage_point := some 13
              roll_over_point := 64 }, none) :=
  ⟨by decide, by decide,
    claim_C4_blip_suppressed 10 0 13 5000000 (by decide) (by decide)⟩

/-- C9: every event the checker emits has kind USER, severity NORMAL and
source FULL_NODE, in every state and for every message. -/
theorem claim_C9_event_constants (s : NonSkippedSignagePoints)
    (obj : FinishedSignagePointMessage) (s' : NonSkippedSignagePoints)
    (ev : Event) (h : s.check obj = some (s', some ev)) :
    ev.type = EventType.USER ∧ ev.priority = EventPriority.NORMAL ∧
      ev.service = EventService.FULL_NODE := by
  obtain ⟨ts, sp, roll⟩ := s
  cases sp with
  | none => simp [NonSkippedSignagePoints.check] at h
  | some lastSp =>
    cases ts with
    | none => simp [NonSkippedSignagePoints.check] at h
    | some lastTs =>
      rw [check_primed_eq, Option.some.injEq, Prod.mk.injEq] at h
      obtain ⟨-, hev⟩ := h
      split at hev
      · split at hev
        · exact Option.noConfusion hev
        · injection hev with hev'
          subst hev'
          exact ⟨rfl, rfl, rfl⟩
      · exact Option.noConfusion hev

/-- C9 witness: a concrete emission (lastCounter 10, counter 13,
elapsed 20 seconds). -/
theorem claim_C9_event_constants_witness :
    (Event.mk EventType.USER EventPriority.NORMAL EventService.FULL_NODE
        (skipMessage 10 13)).type = EventType.USER ∧
      (Event.mk EventType.USER EventPriority.NORMAL EventService.FULL_NODE
        (skipMessage 10 13)).priority = EventPriority.NORMAL ∧
      (Event.mk EventType.USER EventPriority.NORMAL EventService.FULL_NODE
        (skipMessage 10 13)).service = EventService.FULL_NODE :=
  claim_C9_event_constants
    { last_signage_point_timestamp := some 0
      last_signage_point := some 10
      roll_over_point := 64 }
    { timestamp := 20000000, signage_point := 13 }
    { last_signage_point_timestamp := some 20000000
      last_signage_point := some 13
      roll_over_point := 64 }
    (Event.mk EventType.USER EventPriority.NORMAL EventService.FULL_NODE
      (skipMessage 10 13))
    (by rfl)

/-- C2 counterexample: timestamps one day plus five seconds apart.  The
truncated whole number of elapsed seconds is 86405, but the value the code
computes (the timedelta's seconds component) is 5; consequently the checker
suppresses a skip (5 < 15) that the claim's reading would report. -/
theorem claim_C2_counterexample :
    timedeltaSeconds (86405000000 - 0) = 5 ∧
      ((86405000000 - 0 : Int)).fdiv 1000000 = 86405 ∧
      (5 : Int) ≠ 86405 ∧
      NonSkippedSignagePoints.check
          { last_signage_point_timestamp := some 0
            last_signage_point := some 10
            roll_over_point := 64 }
          { timestamp := 86405000000, signage_point := 13 } =
        some ({ last_signage_point_timestamp := some 86405000000
                last_signage_point := some 13
                roll_over_point := 64 }, none) :=
  ⟨by decide, by decide, by decide, by decide⟩

/-- C2 (amended): for a new timestamp not earlier than the last-seen one,
the elapsed value used by the decision is the seconds component of the
duration — the truncated whole seconds reduced modulo 86400 — and it agrees
with the truncated whole seconds exactly on gaps shorter than one day. -/
theorem claim_C2_seconds_component (t1 t2 : Int) (h : t1 ≤ t2) :
    timedeltaSeconds (t2 - t1) = ((t2 - t1).fdiv 1000000).emod 86400 ∧
      (t2 - t1 < 86400000000 →
        timedeltaSeconds (t2 - t1) = (t2 - t1).fdiv 1000000) := by
  have ha : 0 ≤ t2 - t1 := by omega
  unfold timedeltaSeconds
  have hfd : ∀ x : Int, x.fdiv 1000000 = x / 1000000 := fun x =>
    Int.fdiv_eq_ediv x (by norm_num)
  have hm : ∀ x y : Int, x.emod y = x % y := fun _ _ => rfl
  rw [hfd, hfd]
  simp only [hm]
  constructor
  · omega
  · intro hlt
    rw [Int.emod_eq_of_lt ha hlt]

/-- C2 witness: a 20-second gap, where component and truncated seconds agree. -/
theorem claim_C2_seconds_component_witness :
    ((0 : Int) ≤ 20000000) ∧
      (timedeltaSeconds (20000000 - 0) =
          ((20000000 - 0 : Int).fdiv 1000000).emod 86400 ∧
        ((20000000 - 0 : Int) < 86400000000 →
          timedeltaSeconds (20000000 - 0) = (20000000 - 0 : Int).fdiv 1000000)) :=
  ⟨by decide, claim_C2_seconds_component 0 20000000 (by decide)⟩

/-- States reachable from the freshly constructed checker by check calls. -/
inductive Reachable : NonSkippedSignagePoints → Prop where
  | init : Reachable NonSkippedSignagePoints.init
  | step (s : NonSkippedSignagePoints) (m : FinishedSignagePointMessage)
      (s' : NonSkippedSignagePoints) (ev : Option Event) :
      Reachable s → s.check m = some (s', ev) → Reachable s'

/-- C6: in every reachable state the two last-seen fields are both absent or
both present, the rollover modulus is 64, and every check call succeeds and
updates both fields together to the new message's values, whatever branch
was taken and whether or not an event was emitted. -/
theorem claim_C6_state_invariant (s : NonSkippedSignagePoints)
    (hs : Reachable s) :
    (s.last_signage_point_timestamp.isSome ↔ s.last_signage_point.isSome) ∧
      s.roll_over_point = 64 ∧
      ∀ m : FinishedSignagePointMessage,
        (s.check m).map Prod.fst =
          some { last_signage_point_timestamp := some m.timestamp
                 last_signage_point := some m.signage_point
                 roll_over_point := 64 } := by
  induction hs with
  | init => exact ⟨by simp [NonSkippedSignagePoints.init], rfl, fun m => rfl⟩
  | step s m s' ev hr hc ih =>
    have h1 := ih.2.2 m
    rw [hc] at h1
    simp only [Option.map_some', Option.some.injEq] at h1
    subst h1
    exact ⟨by simp, rfl, fun m' => rfl⟩

/-- C6 witness: the invariant instantiated at the initial state and a
concrete first message. -/
theorem claim_C6_state_invariant_witness :
    (NonSkippedSignagePoints.init.last_signage_point_timestamp.isSome ↔
        NonSkippedSignagePoints.init.last_signage_point.isSome) ∧
      NonSkippedSignagePoints.init.roll_over_point = 64 ∧
      (NonSkippedSignagePoints.init.check
            { timestamp := 0, signage_point := 5 }).map Prod.fst =
        some { last_signage_point_timestamp := some 0
               last_signage_point := some 5
               roll_over_point := 64 } := by
  have h := claim_C6_state_invariant NonSkippedSignagePoints.init Reachable.init
  exact ⟨h.1, h.2.1, h.2.2 { timestamp := 0, signage_point := 5 }⟩

/-- FinishedSignagePointHandler.__init__: the registered condition
checkers, a single NonSkippedSignagePoints instance. -/
def FinishedSignagePointHandler.initCheckers : List NonSkippedSignagePoints :=
  [NonSkippedSignagePoints.init]

/-- Inner loop of FinishedSignagePointHandler.handle for one message: run
every registered checker in registration order, append each event that is
present, and thread every checker's updated state; `none` propagates a
checker exception. -/
def checkersStep : List NonSkippedSignagePoints → FinishedSignagePointMessage →
    Option (List NonSkippedSignagePoints × List Event)
  | [], _ => some ([], [])
  | c :: cs, m =>
    match c.check m with
    | none => none
    | some (c', ev) =>
      match checkersStep cs m with
      | none => none
      | some (cs', evs) => some (c' :: cs', ev.toList ++ evs)

/-- FinishedSignagePointHandler.handle over the parsed message sequence:
feed each message, in order, to all checkers and aggregate the collected
events.  The parser (not under src/) is abstracted by quantifying over the
ordered message sequence it produces from the raw text. -/
def FinishedSignagePointHandler.handle :
    List NonSkippedSignagePoints → List FinishedSignagePointMessage →
    Option (List NonSkippedSignagePoints × List Event)
  | cs, [] => some (cs, [])
  | cs, m :: ms =>
    match checkersStep cs m with
    | none => none
    | some (cs', evs) =>
      match FinishedSignagePointHandler.handle cs' ms with
      | none => none
      | some (cs'', evs') => some (cs'', evs ++ evs')

/-- Modelled from the spec: feed one message to every registered checker in
registration order, recording each checker's raw optional result. -/
def checkersRawStep : List NonSkippedSignagePoints → FinishedSignagePointMessage →
    Option (List NonSkippedSignagePoints × List (Option Event))
  | [], _ => some ([], [])
  | c :: cs, m =>
    match c.check m with
    | none => none
    | some (c', ev) =>
      match checkersRawStep cs m with
      | none => none
      | some (cs', evs) => some (c' :: cs', ev :: evs)

/-- Modelled from the spec: feed every message, in order, to every
registered checker, in registration order, recording the full grid of raw
results, one inner list per message. -/
def handleRawTrace :
    List NonSkippedSignagePoints → List FinishedSignagePointMessage →
    Option (List NonSkippedSignagePoints × List (List (Option Event)))
  | cs, [] => some (cs, [])
  | cs, m :: ms =>
    match checkersRawStep cs m with
    | none => none
    | some (cs', evs) =>
      match handleRawTrace cs' ms with
      | none => none
      | some (cs'', rest) => some (cs'', evs :: rest)

theorem checkersStep_eq_raw (cs : List NonSkippedSignagePoints)
    (m : FinishedSignagePointMessage) :
    checkersStep cs m =
      (checkersRawStep cs m).map (fun p => (p.1, p.2.filterMap id)) := by
  induction cs with
  | nil => rfl
  | cons c cs ih =>
    simp only [checkersStep, checkersRawStep]
    cases hc : c.check m with
    | none => rfl
    | some p =>
      obtain ⟨c', ev⟩ := p
      rw [ih]
      cases hr : checkersRawStep cs m with
      | none => rfl
      | some q =>
        obtain ⟨cs', evs⟩ := q
        cases ev <;> simp [Option.toList, List.filterMap_cons]

theorem handle_eq_rawTrace (cs : List NonSkippedSignagePoints)
    (ms : List FinishedSignagePointMessage) :
    FinishedSignagePointHandler.handle cs ms =
      (handleRawTrace cs ms).map
        (fun p => (p.1, (p.2.map (List.filterMap id)).flatten)) := by
  induction ms generalizing cs with
  | nil => rfl
  | cons m ms ih =>
    simp only [FinishedSignagePointHandler.handle, handleRawTrace]
    rw [checkersStep_eq_raw]
    cases hr : checkersRawStep cs m with
    | none => rfl
    | some p =>
      obtain ⟨cs', evs⟩ := p
      simp only [Option.map_some']
      rw [ih]
      cases ht : handleRawTrace cs' ms with
      | none => rfl
      | some q =>
        obtain ⟨cs'', rest⟩ := q
        simp [List.flatten_cons]

/-- C7: handle equals the spec-side run that feeds every parsed message, in
order, to every registered checker, in registration order, keeping exactly
the non-empty events in that nested order; in particular two registered
checkers that each emit for one message yield both events in registration
order, and a run with no emission yields the empty sequence. -/
theorem claim_C7_handler_aggregation :
    (∀ (checkers : List NonSkippedSignagePoints)
        (msgs : List FinishedSignagePointMessage),
      FinishedSignagePointHandler.handle checkers msgs =
        (handleRawTrace checkers msgs).map
          (fun p => (p.1, (p.2.map (List.filterMap id)).flatten))) ∧
    FinishedSignagePointHandler.handle
        [{ last_signage_point_timestamp := some 0
           last_signage_point := some 10
           roll_over_point := 64 },
         { last_signage_point_timestamp := some 0
           last_signage_point := some 20
           roll_over_point := 64 }]
        [{ timestamp := 20000000, signage_point := 13 }] =
      some ([{ last_signage_point_timestamp := some 20000000
               last_signage_point := some 13
               roll_over_point := 64 },
             { last_signage_point_timestamp := some 20000000
               last_signage_point := some 13
               roll_over_point := 64 }],
        [Event.mk EventType.USER EventPriority.NORMAL EventService.FULL_NODE
          (skipMessage 10 13),
         Event.mk EventType.USER EventPriority.NORMAL EventService.FULL_NODE
          (skipMessage 20 13)]) ∧
    FinishedSignagePointHandler.handle
        [{ last_signage_point_timestamp := some 0
           last_signage_point := some 10
           roll_over_point := 64 }]
        [{ timestamp := 20000000, signage_point := 11 }] =
      some ([{ last_signage_point_timestamp := some 20000000
               last_signage_point := some 11
               roll_over_point := 64 }], []) :=
  ⟨handle_eq_rawTrace, by decide, by decide⟩

/-- Modelled from the spec: the notifier's configuration mapping; a Python
dict lookup of the two keys of interest yields an optional value. -/
structure TelegramConfig where
  bot_token : Option String
  chat_id : Option String

/-- TelegramNotifier instance attributes: the title held by the Notifier
base class (source name `_title_prefix`), and the token and chat id
attributes, `none` modelling a Python attribute left unset because
__init__ aborted on a missing key. -/
structure TelegramNotifier where
  titlePrefix : String
  token : Option String
  chat_id : Option String
deriving DecidableEq

/-- TelegramNotifier.__init__: assigns token and then chat id inside a
try/except KeyError that only logs, so construction always succeeds; a
missing bot_token leaves both attributes unset, a present bot_token with a
missing chat_id leaves only chat_id unset. -/
def TelegramNotifier.init (title : String) (config : TelegramConfig) :
    TelegramNotifier :=
  match config.bot_token with
  | none => { titlePrefix := title, token := none, chat_id := none }
  | some tok =>
    match config.chat_id with
    | none => { titlePrefix := title, token := some tok, chat_id := none }
    | some cid => { titlePrefix := title, token := some tok, chat_id := some cid }

/-- The attention marker, Python literal "\U0001F6A8" (the police-light
emoji), prepended for high-severity events. -/
def alarmSymbol : String := String.singleton (Char.ofNat 0x1F6A8)

/-- Observable form of one sendMessage HTTP request: the urlencoded fields
of the POST body. -/
structure SentRequest where
  chat_id : String
  parse_mode : String
  text : String
  disable_notification : Bool
deriving DecidableEq

/-- Loop of TelegramNotifier.send_events_to_user: `respond` gives the HTTP
status code the external API returns to the k-th request of this call,
`errors` accumulates the failure flag; `none` models the AttributeError
raised on an unset token or chat id attribute when a user-facing event
forces a request. -/
def sendAux (n : TelegramNotifier) (respond : Nat → Int) :
    List Event → Nat → Bool → Option (Bool × List SentRequest)
  | [], _, errors => some (errors, [])
  | e :: rest, k, errors =>
    if e.type = EventType.USER then
      match n.token, n.chat_id with
      | some _, some cid =>
        let symbol := if e.priority = EventPriority.HIGH then alarmSymbol else ""
        let req : SentRequest :=
          { chat_id := cid
            parse_mode := "HTML"
            text := "<b>" ++ symbol ++ " " ++ n.titlePrefix ++ " " ++
              e.service.name ++ "</b>\n" ++ e.message
            disable_notification := decide (e.priority = EventPriority.LOW) }
        match sendAux n respond rest (k + 1)
            (errors || decide (respond k ≠ 200)) with
        | none => none
        | some (b, reqs) => some (b, req :: reqs)
      | _, _ => none
    else
      sendAux n respond rest k errors

/-- TelegramNotifier.send_events_to_user: attempt delivery of the
user-facing events in order and report whether any request failed. -/
def TelegramNotifier.send_events_to_user (n : TelegramNotifier)
    (events : List Event) (respond : Nat → Int) :
    Option (Bool × List SentRequest) :=
  sendAux n respond events 0 false

theorem sendAux_eq (n : TelegramNotifier) (tok cid : String)
    (h1 : n.token = some tok) (h2 : n.chat_id = some cid)
    (respond : Nat → Int) (events : List Event) (k : Nat) (errors : Bool) :
    sendAux n respond events k errors =
      some (errors ||
          (List.range (events.filter (fun e =>
              decide (e.type = EventType.USER))).length).any
            (fun i => decide (respond (k + i) ≠ 200)),
        (events.filter (fun e => decide (e.type = EventType.USER))).map
          (fun e =>
            { chat_id := cid
              parse_mode := "HTML"
              text := "<b>" ++
                (if e.priority = EventPriority.HIGH then alarmSymbol else "") ++
                " " ++ n.titlePrefix ++ " " ++ e.service.name ++ "</b>\n" ++
                e.message
              disable_notification :=
                decide (e.priority = EventPriority.LOW) })) := by
  induction events generalizing k errors with
  | nil => simp [sendAux]
  | cons e rest ih =>
    by_cases ht : e.type = EventType.USER
    · simp only [sendAux, ht, if_true, h1, h2]
      rw [ih (k + 1)]
      have harr : ∀ i : Nat, k + 1 + i = k + (i + 1) := fun i => by omega
      simp [List.filter_cons, ht, List.range_succ_eq_map, List.any_cons,
        List.any_map, Bool.or_assoc, Function.comp_def, harr]
    · simp only [sendAux, ht, if_false]
      rw [ih k]
      simp [List.filter_cons, ht]

/-- C8: with both credentials present, send_events_to_user succeeds,
attempts exactly the user-facing events in their order, marks a request
with the attention symbol exactly when the event severity is high, sets
disable_notification exactly when it is low, and returns true if and only
if at least one attempted delivery got a non-200 response. -/
theorem claim_C8_send_events (n : TelegramNotifier) (tok cid : String)
    (h1 : n.token = some tok) (h2 : n.chat_id = some cid)
    (events : List Event) (respond : Nat → Int) :
    n.send_events_to_user events respond =
      some ((List.range (events.filter (fun e =>
            decide (e.type = EventType.USER))).length).any
          (fun i => decide (respond i ≠ 200)),
        (events.filter (fun e => decide (e.type = EventType.USER))).map
          (fun e =>
            { chat_id := cid
              parse_mode := "HTML"
              text := "<b>" ++
                (if e.priority = EventPriority.HIGH then alarmSymbol else "") ++
                " " ++ n.titlePrefix ++ " " ++ e.service.name ++ "</b>\n" ++
                e.message
              disable_notification :=
                decide (e.priority = EventPriority.LOW) })) ∧
      ((List.range (events.filter (fun e =>
            decide (e.type = EventType.USER))).length).any
          (fun i => decide (respond i ≠ 200)) = true ↔
        ∃ i < (events.filter (fun e =>
            decide (e.type = EventType.USER))).length, respond i ≠ 200) := by
  constructor
  · have h := sendAux_eq n tok cid h1 h2 respond events 0 false
    simpa [TelegramNotifier.send_events_to_user] using h
  · simp [List.any_eq_true, List.mem_range]

/-- C8 witness: one high-severity user-facing event and one keep-alive
event, all deliveries succeeding: one request, marked, sound on, no error. -/
theorem claim_C8_send_events_witness :
    (TelegramNotifier.mk "Test" (some "t") (some "c")).send_events_to_user
        [Event.mk EventType.USER EventPriority.HIGH EventService.HARVESTER
          "hello",
         Event.mk EventType.KEEPALIVE EventPriority.NORMAL
          EventService.FULL_NODE "ka"]
        (fun _ => 200) =
      some (false,
        [{ chat_id := "c"
           parse_mode := "HTML"
           text := "<b>" ++ alarmSymbol ++ " Test HARVESTER</b>\n" ++ "hello"
           disable_notification := false }]) := by
  have h := claim_C8_send_events (TelegramNotifier.mk "Test" (some "t")
    (some "c")) "t" "c" rfl rfl
    [Event.mk EventType.USER EventPriority.HIGH EventService.HARVESTER "hello",
     Event.mk EventType.KEEPALIVE EventPriority.NORMAL EventService.FULL_NODE
      "ka"] (fun _ => 200)
  rw [h.1]
  decide

/-- C10: constructing a TelegramNotifier with a config missing bot_token or
chat_id never raises (TelegramNotifier.init is total), the title is always
stored, and the attribute whose key is missing is left unset. -/
theorem claim_C10_init_missing_keys (title : String)
    (config : TelegramConfig) :
    (TelegramNotifier.init title config).titlePrefix = title ∧
      (config.bot_token = none →
        (TelegramNotifier.init title config).token = none ∧
          (TelegramNotifier.init title config).chat_id = none) ∧
      (config.chat_id = none →
        (TelegramNotifier.init title config).chat_id = none) := by
  obtain ⟨bt, ci⟩ := config
  cases bt <;> cases ci <;> simp [TelegramNotifier.init]

/-- C10 witness: a config missing bot_token leaves token and chat id unset
while construction succeeds with the title stored. -/
theorem claim_C10_init_missing_keys_witness :
    (TelegramNotifier.init "T"
        { bot_token := none, chat_id := some "c" }).titlePrefix = "T" ∧
      (TelegramNotifier.init "T"
        { bot_token := none, chat_id := some "c" }).token = none ∧
      (TelegramNotifier.init "T"
        { bot_token := none, chat_id := some "c" }).chat_id = none := by
  have h := claim_C10_init_missing_keys "T"
    { bot_token := none, chat_id := some "c" }
  exact ⟨h.1, (h.2.1 rfl).1, (h.2.1 rfl).2⟩

end Chiadog
